import Mathlib

/-!
Verification of the CLIProxyAPIPlus dispatch plane: per-executor exchange-token
caches, the OAuth device-flow poll loop, streaming-loop error framing, upstream
error surfacing, OpenAI-compatible pass-through translators, and the
user-friendly error message mapping.  Each definition is a shallow embedding of
the corresponding Go function; times are modelled in seconds (`Int` for
absolute Unix-style instants in the token caches, `Nat` for the relative clock
of the poll loop), byte slices as `String`, and network calls are passed in as
explicit arguments (the script of responses an endpoint would return).
-/

/-! ### Token caches (continue_executor.go, windsurf executor)

`continueTokenCacheTTL = 25 * time.Minute`, `tokenExpiryBuffer = 5 * time.Minute`,
`windsurfTokenTTL = 25 * time.Minute`, all in seconds here. -/

def continueTokenCacheTTL : Int := 25 * 60

def tokenExpiryBuffer : Int := 5 * 60

def windsurfTokenTTL : Int := 25 * 60

/-- Entry of the per-executor token cache (`cachedAPIToken` /
`cachedWindsurfToken` in the source): the token string and its absolute expiry
in seconds. -/
structure cachedAPIToken where
  token : String
  expiresAt : Int
deriving DecidableEq, Repr

/-- The per-executor cache map, `map[string]*cachedAPIToken`, as an
association list. -/
abbrev TokenCache : Type := List (String × cachedAPIToken)

/-- Map lookup, `cached, found := e.cache[key]`. -/
def lookupCache : TokenCache → String → Option cachedAPIToken
  | [], _ => none
  | (k, v) :: rest, key => if k = key then some v else lookupCache rest key

/-- Map assignment, `e.cache[key] = entry`. -/
def insertCache : TokenCache → String → cachedAPIToken → TokenCache
  | [], key, entry => [(key, entry)]
  | (k, v) :: rest, key, entry =>
    if k = key then (key, entry) :: rest else (k, v) :: insertCache rest key entry

/-- Result of the Continue `/auth/token` exchange (`ContinueAPIToken` in
internal/auth/continue/token.go): the short-lived token and an optional
Unix-seconds expiry (`0` when the upstream sent none). -/
structure ContinueAPIToken where
  token : String
  expiresAt : Int
deriving DecidableEq, Repr

/-- Exchange-and-cache tail of ContinueExecutor.ensureAPIToken: reject an
empty token, derive the cache expiry from the response when `expiresAt > 0`
and from `now + continueTokenCacheTTL` otherwise, insert the fresh entry under
the auth id and return the token. -/
def continueExchangeAndCache (cache : TokenCache) (now : Int) (authID : String) :
    Except String ContinueAPIToken → Except String (String × TokenCache)
  | .error e => .error e
  | .ok apiToken =>
    if apiToken.token = "" then .error "continue executor: empty API token"
    else
      let expiry := if 0 < apiToken.expiresAt then apiToken.expiresAt
        else now + continueTokenCacheTTL
      .ok (apiToken.token, insertCache cache authID ⟨apiToken.token, expiry⟩)

/-- ContinueExecutor.ensureAPIToken.  The cached entry is served while
`now < cached.expiresAt - tokenExpiryBuffer`; otherwise the executor exchanges
the stored OAuth access token for a fresh API token (the network call is passed
in as `exchangeResult`, the outcome `GetContinueAPIToken` would produce) and
caches it. -/
def continueEnsureAPIToken (cache : TokenCache) (now : Int) (authID : String)
    (exchangeResult : Except String ContinueAPIToken) :
    Except String (String × TokenCache) :=
  match lookupCache cache authID with
  | some cached =>
    if now < cached.expiresAt - tokenExpiryBuffer then
      .ok (cached.token, cache)
    else
      continueExchangeAndCache cache now authID exchangeResult
  | none => continueExchangeAndCache cache now authID exchangeResult

/-- Error value `statusErr{code, msg}` surfaced by the executors (its two
fields are fixed by the struct literals in the executor sources). -/
structure statusErr where
  code : Int
  msg : String
deriving DecidableEq, Repr

/-- WindsurfExecutor.ensureAPIToken: no network call is made.  An auth whose
`metadata.access_token` is empty fails with a 401 `statusErr`; otherwise the
access token itself is served, from the cache when the cached entry satisfies
`expiresAt > now + tokenExpiryBuffer`, and else after (re-)inserting it under
its own value with expiry `now + windsurfTokenTTL`.  The auth (non-nil) is
represented by its extracted `metadata.access_token` string, `""` when the key
is absent. -/
def windsurfEnsureAPIToken (cache : TokenCache) (now : Int) (accessToken : String) :
    Except statusErr (String × TokenCache) :=
  if accessToken = "" then
    .error ⟨401, "missing windsurf access token"⟩
  else
    match lookupCache cache accessToken with
    | some cached =>
      if now + tokenExpiryBuffer < cached.expiresAt then
        .ok (cached.token, cache)
      else
        .ok (accessToken,
          insertCache cache accessToken ⟨accessToken, now + windsurfTokenTTL⟩)
    | none =>
      .ok (accessToken,
        insertCache cache accessToken ⟨accessToken, now + windsurfTokenTTL⟩)

/-- Cache component of the result of `windsurfEnsureAPIToken` on a non-empty
access token (the same branch structure as the function itself). -/
def windsurfCacheAfter (cache : TokenCache) (now : Int) (accessToken : String) :
    TokenCache :=
  match lookupCache cache accessToken with
  | some cached =>
    if now + tokenExpiryBuffer < cached.expiresAt then cache
    else insertCache cache accessToken ⟨accessToken, now + windsurfTokenTTL⟩
  | none => insertCache cache accessToken ⟨accessToken, now + windsurfTokenTTL⟩

/-- Invariant of the Windsurf cache: every entry stores its own key as the
token (which is how `windsurfEnsureAPIToken` always populates it). -/
def TokenCacheInv (cache : TokenCache) : Prop :=
  ∀ k e, lookupCache cache k = some e → e.token = k

/-! ### OAuth device flow (internal/auth/continue/oauth.go)

`defaultPollInterval = 5 * time.Second`, `maxPollDuration = 15 * time.Minute`;
times in whole seconds on a `Nat` clock starting at `now0`, each poll assumed
instantaneous (the tick fires `interval` seconds after the previous action). -/

def defaultPollInterval : Nat := 5

def maxPollDuration : Nat := 15 * 60

/-- Device-code endpoint response (`DeviceCodeResponse` in token.go). -/
structure DeviceCodeResponse where
  deviceCode : String
  userCode : String
  verificationURI : String
  expiresIn : Nat
  interval : Nat
deriving DecidableEq, Repr

/-- Token data produced by a successful exchange (`ContinueTokenData`). -/
structure ContinueTokenData where
  accessToken : String
  tokenType : String
  scope : String
deriving DecidableEq, Repr

/-- Decoded JSON body of one token-endpoint response, with `""` standing for
an absent field. -/
structure OAuthTokenBody where
  error : String
  errorDescription : String
  accessToken : String
  tokenType : String
  scope : String
deriving DecidableEq, Repr

/-- Errors produced by the device flow: `AuthenticationError` is identified by
its `Type` string, `OAuthError` carries the provider code, description and
HTTP status. -/
inductive AuthFlowError where
  | authError (typ : String)
  | oauthError (code desc : String) (status : Int)
deriving DecidableEq, Repr

/-- DeviceFlowClient.exchangeDeviceCode, applied to the decoded response of
one poll of the token endpoint: a non-empty `error` field is mapped to the
corresponding `AuthenticationError` (or a generic `OAuthError` for unknown
codes); otherwise an empty `access_token` is rejected, and a non-empty one
succeeds.  The HTTP status is only recorded inside `OAuthError`. -/
def exchangeDeviceCode (status : Int) (body : OAuthTokenBody) :
    Except AuthFlowError ContinueTokenData :=
  if body.error ≠ "" then
    if body.error = "authorization_pending" then .error (.authError "authorization_pending")
    else if body.error = "slow_down" then .error (.authError "slow_down")
    else if body.error = "expired_token" then .error (.authError "device_code_expired")
    else if body.error = "access_denied" then .error (.authError "access_denied")
    else .error (.oauthError body.error body.errorDescription status)
  else if body.accessToken = "" then .error (.authError "token_exchange_failed")
  else .ok ⟨body.accessToken, body.tokenType, body.scope⟩

/-- Outcome of `PollForToken`: the time component is the absolute second at
which the loop returned.  `timeout` models returning `ErrPollingTimeout`;
`exhausted` marks running past the end of the scripted endpoint responses. -/
inductive PollResult where
  | success (token : String) (time : Nat)
  | failed (e : AuthFlowError) (time : Nat)
  | timeout (time : Nat)
  | exhausted (time : Nat)
deriving DecidableEq, Repr

/-- Whether a poll outcome is the `ErrPollingTimeout` return. -/
def PollResult.isTimeout : PollResult → Bool
  | .timeout _ => true
  | _ => false

/-- Time of a timeout outcome, when it is one. -/
def timeoutTime : PollResult → Option Nat
  | .timeout t => some t
  | _ => none

/-- The ticker loop of DeviceFlowClient.PollForToken over a script of token
endpoint responses (status and decoded body per poll).  Each iteration waits
`interval` seconds, returns `ErrPollingTimeout` when past the deadline
(without consuming a response), and otherwise exchanges the device code:
`authorization_pending` continues unchanged, `slow_down` adds 5 s to the
interval and resets the ticker, and every other error as well as a success is
terminal. -/
def pollLoop (deadline : Nat) : Nat → Nat → List (Int × OAuthTokenBody) → PollResult
  | now, _, [] => .exhausted now
  | now, interval, (st, b) :: rest =>
    let t := now + interval
    if deadline < t then .timeout t
    else
      match exchangeDeviceCode st b with
      | .ok tok => .success tok.accessToken t
      | .error (.authError typ) =>
        if typ = "authorization_pending" then pollLoop deadline t interval rest
        else if typ = "slow_down" then pollLoop deadline t (interval + 5) rest
        else .failed (.authError typ) t
      | .error e => .failed e t

/-- DeviceFlowClient.PollForToken: the interval is raised to
`defaultPollInterval` when smaller, the deadline is `now0 + maxPollDuration`
tightened to `now0 + expiresIn` when the device code carries a positive
`expires_in`, and the ticker loop runs over the scripted responses. -/
def pollForToken (now0 : Nat) (dc : DeviceCodeResponse)
    (script : List (Int × OAuthTokenBody)) : PollResult :=
  let interval := if dc.interval < defaultPollInterval then defaultPollInterval else dc.interval
  let deadline :=
    if 0 < dc.expiresIn then now0 + min dc.expiresIn maxPollDuration
    else now0 + maxPollDuration
  pollLoop deadline now0 interval script

/-- Token body that scripts an `authorization_pending` response. -/
def pendingBody : OAuthTokenBody := ⟨"authorization_pending", "", "", "", ""⟩

/-- Token body that scripts a `slow_down` response. -/
def slowDownBody : OAuthTokenBody := ⟨"slow_down", "", "", "", ""⟩

/-- Token body that scripts an `expired_token` response. -/
def expiredBody : OAuthTokenBody := ⟨"expired_token", "", "", "", ""⟩

/-- Token body that scripts an `access_denied` response. -/
def deniedBody : OAuthTokenBody := ⟨"access_denied", "", "", "", ""⟩

/-- Token body that scripts a successful token response. -/
def successBody : OAuthTokenBody := ⟨"", "", "at-123", "bearer", "user:email"⟩

/-! ### JSON model for the sjson mutations on the outbound body -/

/-- Minimal JSON value, enough to model the `sjson.SetBytes` calls the
executors apply to the translated request body. -/
inductive Json where
  | null
  | bool (b : Bool)
  | num (n : Int)
  | str (s : String)
  | arr (elems : List Json)
  | obj (fields : List (String × Json))

/-- Fields of an object, `[]` for any other value (which `sjson` overwrites
with a fresh object when setting a key on it). -/
def Json.fieldsOf : Json → List (String × Json)
  | .obj fields => fields
  | _ => []

/-- Field lookup in an object field list. -/
def lookupField : List (String × Json) → String → Option Json
  | [], _ => none
  | (k, v) :: rest, key => if k = key then some v else lookupField rest key

/-- Set (replace or append) a key in an object field list. -/
def setKey : List (String × Json) → String → Json → List (String × Json)
  | [], key, v => [(key, v)]
  | (k, w) :: rest, key, v =>
    if k = key then (key, v) :: rest else (k, w) :: setKey rest key v

/-- Existing child at a key, or a fresh empty object, as `sjson` does when it
builds intermediate path components. -/
def Json.childOf (fields : List (String × Json)) (key : String) : Json :=
  match lookupField fields key with
  | some c => c
  | none => .obj []

/-- Model of `sjson.SetBytes(body, path, v)` for a dot-separated path, given
as a list of keys: sets the key at the end of the path, creating or replacing
intermediate objects. -/
def sjsonSet (j : Json) : List String → Json → Json
  | [], v => v
  | [k], v => .obj (setKey j.fieldsOf k v)
  | k :: rest, v => .obj (setKey j.fieldsOf k (sjsonSet (Json.childOf j.fieldsOf k) rest v))

/-- Read a dot-separated path out of a JSON value. -/
def jsonPathGet : List String → Json → Option Json
  | [], j => some j
  | k :: rest, .obj fields =>
    match lookupField fields k with
    | some c => jsonPathGet rest c
    | none => none
  | _ :: _, _ => none

/-- Final body mutation of ContinueExecutor.ExecuteStream on the translated,
overlay-adjusted body: `sjson.SetBytes(body, "stream", true)` and nothing
else. -/
def continueStreamBodyFinal (body : Json) : Json :=
  sjsonSet body ["stream"] (.bool true)

/-- Final body mutations of WindsurfExecutor.ExecuteStream:
`sjson.SetBytes(body, "stream", true)` followed by
`sjson.SetBytes(body, "stream_options.include_usage", true)`. -/
def windsurfStreamBodyFinal (body : Json) : Json :=
  sjsonSet (sjsonSet body ["stream"] (.bool true))
    ["stream_options", "include_usage"] (.bool true)

/-! ### Usage reporter and the streaming loops -/

/-- Modelled from the spec: the per-request usage reporter
(`newUsageReporter` / `usageReporter` of the executor package is not under
src/; §4.7 of the spec defines its lifecycle).  It records whether a success
or a failure has been published; each is published at most once and a failure
only when no success was published. -/
structure usageReporter where
  successPublished : Bool
  failurePublished : Bool
deriving DecidableEq, Repr

/-- Modelled from the spec: `reporter.publish` records a success. -/
def usageReporter.publish (r : usageReporter) : usageReporter :=
  { r with successPublished := true }

/-- Modelled from the spec: `reporter.publishFailure` records a failure when
no success (and no earlier failure) was published. -/
def usageReporter.publishFailure (r : usageReporter) : usageReporter :=
  if r.successPublished || r.failurePublished then r
  else { r with failurePublished := true }

/-- Modelled from the spec: `reporter.ensurePublished` publishes a failure
when the request ends with nothing published. -/
def usageReporter.ensurePublished (r : usageReporter) : usageReporter :=
  if r.successPublished || r.failurePublished then r
  else { r with failurePublished := true }

/-- One chunk on the executor output channel: a payload, or a terminal error
(`StreamChunk{Err: ...}`). -/
inductive StreamChunk where
  | data (payload : String)
  | err (msg : String)
deriving DecidableEq, Repr

/-- Whether a chunk is an error chunk. -/
def StreamChunk.isErr : StreamChunk → Bool
  | .err _ => true
  | .data _ => false

/-- ContinueExecutor.streamResponse on a scanner that yields `lines` and then
stops with `scanErr` (`none` for a clean EOF): every line is translated
(`sdktranslator.TranslateStream`, passed in as `translate`) and its parts are
forwarded as data chunks; a scanner error is only logged — no chunk is
emitted for it — and the reporter is finalized with `ensurePublished` before
the channel closes.  The context is modelled as never cancelled. -/
def continueStreamResponse (translate : String → List String)
    (lines : List String) (scanErr : Option String) (r : usageReporter) :
    List StreamChunk × usageReporter :=
  let _ := scanErr
  ((lines.map fun l => (translate l).map StreamChunk.data).flatten,
    r.ensurePublished)

/-- Trim leading and trailing whitespace from a character list
(`bytes.TrimSpace`). -/
def trimChars (cs : List Char) : List Char :=
  ((cs.dropWhile fun c => c.isWhitespace).reverse.dropWhile fun c => c.isWhitespace).reverse

/-- `bytes.HasPrefix(line, dataTag)` with `dataTag = "data:"`. -/
def hasDataTag (line : String) : Bool :=
  ("data:").toList.isPrefixOf line.toList

/-- Whether a scanned line is the `data: [DONE]` sentinel that the Windsurf
streaming loop skips entirely (`bytes.TrimSpace(line[5:]) == "[DONE]"`). -/
def windsurfIsDone (line : String) : Bool :=
  hasDataTag line && decide (trimChars (line.toList.drop 5) = ("[DONE]").toList)

/-- Per-line phase of the WindsurfExecutor.ExecuteStream goroutine: `[DONE]`
lines are skipped; a `data:` line that parses as an OpenAI usage frame
(`parseOpenAIStreamUsage`, abstracted as `parseUsage`) publishes usage; every
non-skipped line is translated and forwarded as data chunks. -/
def windsurfProcessLines (translate : String → List String)
    (parseUsage : String → Bool) :
    List String → usageReporter → List StreamChunk × usageReporter
  | [], r => ([], r)
  | l :: rest, r =>
    if windsurfIsDone l then windsurfProcessLines translate parseUsage rest r
    else
      let r1 := if hasDataTag l && parseUsage l then r.publish else r
      let next := windsurfProcessLines translate parseUsage rest r1
      ((translate l).map StreamChunk.data ++ next.1, next.2)

/-- WindsurfExecutor.ExecuteStream goroutine on a scanner that yields `lines`
then stops with `scanErr`: after the line loop, a scanner error publishes a
failure and emits a final error chunk before the channel closes, while a
clean EOF finalizes via `ensurePublished`. -/
def windsurfStreamResponse (translate : String → List String)
    (parseUsage : String → Bool) (lines : List String)
    (scanErr : Option String) (r : usageReporter) :
    List StreamChunk × usageReporter :=
  let body := windsurfProcessLines translate parseUsage lines r
  match scanErr with
  | some e => (body.1 ++ [.err e], body.2.publishFailure)
  | none => (body.1, body.2.ensurePublished)

/-! ### Upstream HTTP status handling (Execute / ExecuteStream of the
Continue, Windsurf and Bolt executors) -/

/-- isHTTPSuccess (internal/auth/continue/token.go, also used by the
executors): `statusCode >= 200 && statusCode < 300`. -/
def isHTTPSuccess (statusCode : Int) : Bool :=
  decide (200 ≤ statusCode) && decide (statusCode < 300)

/-- Non-streaming executor response (`cliproxyexecutor.Response`): the
translated payload bytes. -/
structure Response where
  payload : String
deriving DecidableEq, Repr

/-- ContinueExecutor.Execute from the upstream HTTP response on: a non-2xx
status reads the full error body and surfaces `statusErr{code, body}` with no
response payload; a 2xx body is read, translated
(`sdktranslator.TranslateNonStream`, passed in as `translate`) and returned
as the payload. -/
def continueExecuteDispatch (translate : String → String)
    (status : Int) (body : String) : Except statusErr Response :=
  if isHTTPSuccess status then .ok ⟨translate body⟩
  else .error ⟨status, body⟩

/-- WindsurfExecutor.Execute: same non-2xx handling as the Continue
executor. -/
def windsurfExecuteDispatch (translate : String → String)
    (status : Int) (body : String) : Except statusErr Response :=
  if isHTTPSuccess status then .ok ⟨translate body⟩
  else .error ⟨status, body⟩

/-- BoltExecutor.Execute: the status test is written
`StatusCode < 200 || StatusCode >= 300` in the source. -/
def boltExecuteDispatch (translate : String → String)
    (status : Int) (body : String) : Except statusErr Response :=
  if decide (status < 200) || decide (300 ≤ status) then .error ⟨status, body⟩
  else .ok ⟨translate body⟩

/-- ContinueExecutor.ExecuteStream up to the choice between failing and
starting the stream goroutine: a non-2xx status reads the full error body,
closes it and surfaces `statusErr{code, body}` with no channel; a 2xx opens
the channel whose eventual chunks are `chunks`. -/
def continueExecuteStreamDispatch (chunks : List StreamChunk)
    (status : Int) (body : String) : Except statusErr (List StreamChunk) :=
  if isHTTPSuccess status then .ok chunks
  else .error ⟨status, body⟩

/-- WindsurfExecutor.ExecuteStream: same non-2xx handling (the body read is
modelled as succeeding). -/
def windsurfExecuteStreamDispatch (chunks : List StreamChunk)
    (status : Int) (body : String) : Except statusErr (List StreamChunk) :=
  if isHTTPSuccess status then .ok chunks
  else .error ⟨status, body⟩

/-- BoltExecutor.ExecuteStream, with the literal `< 200 || >= 300` test. -/
def boltExecuteStreamDispatch (chunks : List StreamChunk)
    (status : Int) (body : String) : Except statusErr (List StreamChunk) :=
  if decide (status < 200) || decide (300 ≤ status) then .error ⟨status, body⟩
  else .ok chunks

/-! ### OpenAI-compatible pass-through translators
(internal/translator/windsurf/openai/chat-completions,
internal/translator/openai/windsurf, and the cursor ↔ openai_chat pair) -/

/-- ConvertOpenAIRequestToWindsurf: pass-through. -/
def ConvertOpenAIRequestToWindsurf (model : String) (body : String) (stream : Bool) :
    String :=
  let _ := model
  let _ := stream
  body

/-- ConvertWindsurfRequestToOpenAI: pass-through. -/
def ConvertWindsurfRequestToOpenAI (model : String) (body : String) (stream : Bool) :
    String :=
  let _ := model
  let _ := stream
  body

/-- ConvertWindsurfResponseToOpenAI (streaming): an empty line produces no
output, any other line is forwarded as the single output part. -/
def ConvertWindsurfResponseToOpenAI (line : String) : List String :=
  if line.length = 0 then [] else [line]

/-- ConvertWindsurfResponseToOpenAINonStream: pass-through. -/
def ConvertWindsurfResponseToOpenAINonStream (body : String) : String :=
  body

/-- ConvertOpenAIResponseToWindsurf (streaming): same pass-through shape. -/
def ConvertOpenAIResponseToWindsurf (line : String) : List String :=
  if line.length = 0 then [] else [line]

/-- ConvertOpenAIResponseToWindsurfNonStream: pass-through. -/
def ConvertOpenAIResponseToWindsurfNonStream (body : String) : String :=
  body

/-- ConvertCursorResponseToOpenAI (streaming): same pass-through shape. -/
def ConvertCursorResponseToOpenAI (line : String) : List String :=
  if line.length = 0 then [] else [line]

/-- ConvertCursorResponseToOpenAINonStream: pass-through. -/
def ConvertCursorResponseToOpenAINonStream (body : String) : String :=
  body

/-! ### User-friendly device-flow error messages
(internal/auth/continue/errors.go, internal/auth/cursor/errors.go) -/

/-- Error given to continueauth.GetUserFriendlyMessage: an
`AuthenticationError` (identified by its `Type`), an `OAuthError` (code and
description), or any other error. -/
inductive ContinueAuthFailure where
  | authError (typ : String)
  | oauthError (code desc : String)
  | otherError
deriving DecidableEq, Repr

/-- continueauth.GetUserFriendlyMessage: switch on the authentication error
type, then on the OAuth error code, with the literal messages of the
source; an unrecognized OAuth code falls through to
`"Authentication failed: " + Description`. -/
def continueGetUserFriendlyMessage : ContinueAuthFailure → String
  | .authError typ =>
    if typ = "device_code_failed" then
      "Failed to start Continue.dev authentication. Please check your network connection and try again."
    else if typ = "device_code_expired" then
      "The authentication code has expired. Please try again."
    else if typ = "authorization_pending" then
      "Waiting for you to authorize the application on Continue.dev."
    else if typ = "slow_down" then
      "Please wait a moment before trying again."
    else if typ = "access_denied" then
      "Authentication was cancelled or denied."
    else if typ = "token_exchange_failed" then
      "Failed to complete authentication. Please try again."
    else if typ = "polling_timeout" then
      "Authentication timed out. Please try again."
    else if typ = "user_info_failed" then
      "Failed to get your Continue.dev account information. Please try again."
    else
      "Authentication failed. Please try again."
  | .oauthError code desc =>
    if code = "access_denied" then
      "Authentication was cancelled or denied."
    else if code = "invalid_request" then
      "Invalid authentication request. Please try again."
    else if code = "server_error" then
      "Continue.dev server error. Please try again later."
    else
      "Authentication failed: " ++ desc
  | .otherError => "An unexpected error occurred. Please try again."

/-- The fixed message literals of continueauth.GetUserFriendlyMessage (every
string returned outside the unrecognized-OAuth-code fall-through). -/
def continueFriendlyMessages : List String :=
  ["Failed to start Continue.dev authentication. Please check your network connection and try again.",
   "The authentication code has expired. Please try again.",
   "Waiting for you to authorize the application on Continue.dev.",
   "Please wait a moment before trying again.",
   "Authentication was cancelled or denied.",
   "Failed to complete authentication. Please try again.",
   "Authentication timed out. Please try again.",
   "Failed to get your Continue.dev account information. Please try again.",
   "Authentication failed. Please try again.",
   "Invalid authentication request. Please try again.",
   "Continue.dev server error. Please try again later.",
   "An unexpected error occurred. Please try again."]

/-- Error given to cursor.GetUserFriendlyMessage: a typed
`AuthenticationError` whose `Error()` rendering is `errText`, or any other
error rendering as `errText`. -/
inductive CursorAuthFailure where
  | authError (typ : String) (errText : String)
  | otherError (errText : String)
deriving DecidableEq, Repr

/-- Rendered `Error()` string of a cursor failure. -/
def CursorAuthFailure.errString : CursorAuthFailure → String
  | .authError _ errText => errText
  | .otherError errText => errText

/-- cursor.GetUserFriendlyMessage: switch on six of the eight error types
(`authorization_pending` and `slow_down` are not matched and fall through),
with everything else rendered as `"Authentication failed: " + err.Error()`. -/
def cursorGetUserFriendlyMessage : CursorAuthFailure → String
  | .authError typ errText =>
    if typ = "device_code_failed" then
      "Failed to start authentication. Please check your internet connection and try again."
    else if typ = "token_exchange_failed" then
      "Failed to complete authentication. Please try again."
    else if typ = "expired_token" then
      "The authentication code has expired. Please start the authentication process again."
    else if typ = "access_denied" then
      "Authentication was denied. Please try again and authorize the application."
    else if typ = "polling_timeout" then
      "Authentication timed out. Please start the authentication process again and complete it more quickly."
    else if typ = "user_info_failed" then
      "Failed to retrieve user information. Your authentication may still be valid."
    else
      "Authentication failed: " ++ errText
  | .otherError errText => "Authentication failed: " ++ errText

/-- The fixed message literals of cursor.GetUserFriendlyMessage. -/
def cursorFriendlyMessages : List String :=
  ["Failed to start authentication. Please check your internet connection and try again.",
   "Failed to complete authentication. Please try again.",
   "The authentication code has expired. Please start the authentication process again.",
   "Authentication was denied. Please try again and authorize the application.",
   "Authentication timed out. Please start the authentication process again and complete it more quickly.",
   "Failed to retrieve user information. Your authentication may still be valid."]

/-! ## Theorems -/

theorem lookupCache_insertCache_self (c : TokenCache) (k : String) (v : cachedAPIToken) :
    lookupCache (insertCache c k v) k = some v := by
  induction c with
  | nil => simp [insertCache, lookupCache]
  | cons hd tl ih =>
    by_cases h : hd.1 = k
    · simp [insertCache, lookupCache, h]
    · simp [insertCache, lookupCache, h, ih]

/-- C1 (counterexample): at `now = 0` with a cached Continue token expiring
240 s (4 min) ahead, `ensureAPIToken` does NOT return the cached value — it
refreshes, returning the exchanged token; and a cached Windsurf token
expiring 360 s (6 min) ahead is served from the cache with the cache left
unchanged (no refresh), contradicting the claimed 4-min-cached / 6-min-refresh
behaviour. -/
theorem token_cache_window_counterexample :
    continueEnsureAPIToken [("auth-1", ⟨"cached-token", 240⟩)] 0 "auth-1"
        (.ok ⟨"fresh-token", 0⟩) =
      .ok ("fresh-token", [("auth-1", ⟨"fresh-token", 1500⟩)]) ∧
    ("fresh-token" : String) ≠ "cached-token" ∧
    windsurfEnsureAPIToken [("at-1", ⟨"at-1", 360⟩)] 0 "at-1" =
      .ok ("at-1", [("at-1", ⟨"at-1", 360⟩)]) := by
  refine ⟨rfl, by decide, rfl⟩

/-- C1 (amended): for both executors the cached token is served exactly when
its expiry is more than `tokenExpiryBuffer` (5 min) away — so a token 6 min
ahead is returned from the cache, while one 4 min ahead triggers a refresh
(for Continue a fresh exchange whose result is returned and cached; for
Windsurf a re-insert of the access token with a fresh 25-min expiry). -/
theorem token_cache_window (cache : TokenCache) (now : Int) (id tok : String)
    (e : cachedAPIToken) (t : ContinueAPIToken) :
    (lookupCache cache id = some e → now + tokenExpiryBuffer < e.expiresAt →
      continueEnsureAPIToken cache now id (.ok t) = .ok (e.token, cache)) ∧
    (lookupCache cache id = some e → e.expiresAt ≤ now + tokenExpiryBuffer →
      t.token ≠ "" →
      continueEnsureAPIToken cache now id (.ok t) =
        .ok (t.token, insertCache cache id
          ⟨t.token, if 0 < t.expiresAt then t.expiresAt else now + continueTokenCacheTTL⟩)) ∧
    (tok ≠ "" → lookupCache cache tok = some e → now + tokenExpiryBuffer < e.expiresAt →
      windsurfEnsureAPIToken cache now tok = .ok (e.token, cache)) ∧
    (tok ≠ "" → lookupCache cache tok = some e → e.expiresAt ≤ now + tokenExpiryBuffer →
      windsurfEnsureAPIToken cache now tok =
        .ok (tok, insertCache cache tok ⟨tok, now + windsurfTokenTTL⟩)) := by
  refine ⟨?_, ?_, ?_, ?_⟩
  · intro hlook hfresh
    have hc : now < e.expiresAt - tokenExpiryBuffer := by omega
    simp [continueEnsureAPIToken, hlook, hc]
  · intro hlook hstale htok
    have hc : ¬ now < e.expiresAt - tokenExpiryBuffer := by omega
    simp [continueEnsureAPIToken, hlook, hc, continueExchangeAndCache, htok]
  · intro htok hlook hfresh
    simp [windsurfEnsureAPIToken, htok, hlook, hfresh]
  · intro htok hlook hstale
    have hc : ¬ now + tokenExpiryBuffer < e.expiresAt := by omega
    simp [windsurfEnsureAPIToken, htok, hlook, hc]

/-- C1 witness: concrete caches at `now = 0` with entries 360 s and 240 s
ahead, exercising all four branches of `token_cache_window`. -/
theorem token_cache_window_witness :
    continueEnsureAPIToken [("id-1", ⟨"cached", 360⟩)] 0 "id-1" (.ok ⟨"fresh", 0⟩) =
      .ok ("cached", [("id-1", ⟨"cached", 360⟩)]) ∧
    continueEnsureAPIToken [("id-1", ⟨"cached", 240⟩)] 0 "id-1" (.ok ⟨"fresh", 0⟩) =
      .ok ("fresh", [("id-1", ⟨"fresh", 1500⟩)]) ∧
    windsurfEnsureAPIToken [("at-1", ⟨"at-1", 360⟩)] 0 "at-1" =
      .ok ("at-1", [("at-1", ⟨"at-1", 360⟩)]) ∧
    windsurfEnsureAPIToken [("at-1", ⟨"at-1", 240⟩)] 0 "at-1" =
      .ok ("at-1", [("at-1", ⟨"at-1", 1500⟩)]) := by
  refine ⟨?_, ?_, ?_, ?_⟩
  · exact (token_cache_window [("id-1", ⟨"cached", 360⟩)] 0 "id-1" "x"
      ⟨"cached", 360⟩ ⟨"fresh", 0⟩).1 rfl (by decide)
  · exact (token_cache_window [("id-1", ⟨"cached", 240⟩)] 0 "id-1" "x"
      ⟨"cached", 240⟩ ⟨"fresh", 0⟩).2.1 rfl (by decide) (by decide)
  · exact (token_cache_window [("at-1", ⟨"at-1", 360⟩)] 0 "x" "at-1"
      ⟨"at-1", 360⟩ ⟨"", 0⟩).2.2.1 (by decide) rfl (by decide)
  · exact (token_cache_window [("at-1", ⟨"at-1", 240⟩)] 0 "x" "at-1"
      ⟨"at-1", 240⟩ ⟨"", 0⟩).2.2.2 (by decide) rfl (by decide)

/-- C9: in ContinueExecutor.ensureAPIToken, when the `/auth/token` exchange
response carries `expires_at > 0` the cached entry's expiry is exactly that
upstream timestamp, and the 25-minute TTL is the cache expiry only when the
response has no positive `expires_at`. -/
theorem continue_exchange_expiry (cache : TokenCache) (now : Int) (id : String)
    (t : ContinueAPIToken) (hmiss : lookupCache cache id = none) (htok : t.token ≠ "") :
    (0 < t.expiresAt →
      continueEnsureAPIToken cache now id (.ok t) =
        .ok (t.token, insertCache cache id ⟨t.token, t.expiresAt⟩)) ∧
    (t.expiresAt ≤ 0 →
      continueEnsureAPIToken cache now id (.ok t) =
        .ok (t.token, insertCache cache id ⟨t.token, now + continueTokenCacheTTL⟩)) := by
  constructor
  · intro hpos
    simp only [continueEnsureAPIToken, hmiss]
    simp [continueExchangeAndCache, htok, hpos]
  · intro hnonpos
    simp only [continueEnsureAPIToken, hmiss]
    simp [continueExchangeAndCache, htok, if_neg (by omega : ¬ (0 < t.expiresAt))]

/-- C9 witness: an empty cache with exchange responses carrying
`expires_at = 777` and `expires_at = 0`. -/
theorem continue_exchange_expiry_witness :
    continueEnsureAPIToken [] 10 "id-9" (.ok ⟨"tok-9", 777⟩) =
      .ok ("tok-9", [("id-9", ⟨"tok-9", 777⟩)]) ∧
    continueEnsureAPIToken [] 10 "id-9" (.ok ⟨"tok-9", 0⟩) =
      .ok ("tok-9", [("id-9", ⟨"tok-9", 10 + 1500⟩)]) := by
  constructor
  · exact (continue_exchange_expiry [] 10 "id-9" ⟨"tok-9", 777⟩ rfl (by decide)).1 (by decide)
  · exact (continue_exchange_expiry [] 10 "id-9" ⟨"tok-9", 0⟩ rfl (by decide)).2 (by decide)

/-- C10: WindsurfExecutor.ensureAPIToken (a pure cache operation, no network
call in the model because the source makes none): an empty
`metadata.access_token` fails with `statusErr` 401; a non-empty one returns
exactly that access token (using the cache invariant that entries store their
own key), and whenever no fresh cached entry exists the token is inserted
under its own value with expiry 25 minutes (`windsurfTokenTTL`) ahead. -/
theorem windsurf_ensure_api_token_contract (cache : TokenCache) (now : Int)
    (tok : String) (hinv : TokenCacheInv cache) :
    (windsurfEnsureAPIToken cache now "" =
      .error ⟨401, "missing windsurf access token"⟩) ∧
    (tok ≠ "" →
      windsurfEnsureAPIToken cache now tok = .ok (tok, windsurfCacheAfter cache now tok)) ∧
    (tok ≠ "" →
      (∀ e, lookupCache cache tok = some e → e.expiresAt ≤ now + tokenExpiryBuffer) →
      lookupCache (windsurfCacheAfter cache now tok) tok =
        some ⟨tok, now + windsurfTokenTTL⟩) := by
  refine ⟨by simp [windsurfEnsureAPIToken], ?_, ?_⟩
  · intro htok
    cases hlook : lookupCache cache tok with
    | none => simp [windsurfEnsureAPIToken, windsurfCacheAfter, htok, hlook]
    | some e =>
      by_cases hfresh : now + tokenExpiryBuffer < e.expiresAt
      · simp [windsurfEnsureAPIToken, windsurfCacheAfter, htok, hlook, hfresh,
          hinv tok e hlook]
      · simp [windsurfEnsureAPIToken, windsurfCacheAfter, htok, hlook, hfresh]
  · intro htok hstale
    cases hlook : lookupCache cache tok with
    | none =>
      simp only [windsurfCacheAfter, hlook]
      exact lookupCache_insertCache_self cache tok _
    | some e =>
      have hc : ¬ now + tokenExpiryBuffer < e.expiresAt := by
        have := hstale e hlook
        omega
      simp only [windsurfCacheAfter, hlook, if_neg hc]
      exact lookupCache_insertCache_self cache tok _

/-- C10 witness: the empty cache at `now = 5` with access token `"acc"`. -/
theorem windsurf_ensure_api_token_contract_witness :
    windsurfEnsureAPIToken [] 5 "" = .error ⟨401, "missing windsurf access token"⟩ ∧
    windsurfEnsureAPIToken [] 5 "acc" = .ok ("acc", windsurfCacheAfter [] 5 "acc") ∧
    lookupCache (windsurfCacheAfter [] 5 "acc") "acc" = some ⟨"acc", 5 + 1500⟩ := by
  have hinv : TokenCacheInv [] := by
    intro k e h
    exact Option.noConfusion h
  refine ⟨(windsurf_ensure_api_token_contract [] 5 "acc" hinv).1,
    (windsurf_ensure_api_token_contract [] 5 "acc" hinv).2.1 (by decide),
    (windsurf_ensure_api_token_contract [] 5 "acc" hinv).2.2 (by decide) ?_⟩
  intro e h
  exact Option.noConfusion h

/-- C2: one poll step of the device flow, taken strictly before the deadline:
an `authorization_pending` response continues with the interval unchanged; a
`slow_down` response continues with the interval increased by 5 s (so the
next poll fires at least `interval + 5` after this one); `expired_token` and
`access_denied` terminate immediately with that error; a response with no
error field and a non-empty `access_token` succeeds with that token; and
`PollForToken` enters the loop with interval `max(interval, 5 s)` and
deadline `min(expires_in, 15 min)` past the start. -/
theorem device_flow_poll_transitions (d now interval : Nat) (st : Int)
    (tok tokType scop : String) (rest : List (Int × OAuthTokenBody))
    (hin : now + interval ≤ d) :
    (pollLoop d now interval ((st, pendingBody) :: rest) =
        pollLoop d (now + interval) interval rest) ∧
    (pollLoop d now interval ((st, slowDownBody) :: rest) =
        pollLoop d (now + interval) (interval + 5) rest) ∧
    (pollLoop d now interval ((st, expiredBody) :: rest) =
        .failed (.authError "device_code_expired") (now + interval)) ∧
    (pollLoop d now interval ((st, deniedBody) :: rest) =
        .failed (.authError "access_denied") (now + interval)) ∧
    (tok ≠ "" → pollLoop d now interval ((st, ⟨"", "", tok, tokType, scop⟩) :: rest) =
        .success tok (now + interval)) ∧
    (∀ n0 dc script, pollForToken n0 dc script =
      pollLoop
        (if 0 < dc.expiresIn then n0 + min dc.expiresIn maxPollDuration
          else n0 + maxPollDuration)
        n0 (max dc.interval defaultPollInterval) script) := by
  have hno : ¬ d < now + interval := by omega
  refine ⟨?_, ?_, ?_, ?_, ?_, ?_⟩
  · simp [pollLoop, exchangeDeviceCode, hno, pendingBody]
  · simp [pollLoop, exchangeDeviceCode, hno, slowDownBody]
  · simp [pollLoop, exchangeDeviceCode, hno, expiredBody]
  · simp [pollLoop, exchangeDeviceCode, hno, deniedBody]
  · intro htok
    simp [pollLoop, exchangeDeviceCode, hno, htok]
  · intro n0 dc script
    have hmax : (if dc.interval < defaultPollInterval then defaultPollInterval
        else dc.interval) = max dc.interval defaultPollInterval := by
      rw [Nat.max_def]
      by_cases h : dc.interval < defaultPollInterval
      · rw [if_pos h, if_pos (Nat.le_of_lt h)]
      · by_cases h2 : dc.interval ≤ defaultPollInterval
        · have h3 : dc.interval = defaultPollInterval := by omega
          rw [if_neg h, if_pos h2, h3]
        · rw [if_neg h, if_neg h2]
    simp only [pollForToken, hmax]

/-- C2 witness: a 100 s deadline, 5 s interval, and one scripted response of
each kind. -/
theorem device_flow_poll_transitions_witness :
    pollLoop 100 0 5 [(400, pendingBody)] = pollLoop 100 5 5 [] ∧
    pollLoop 100 0 5 [(400, slowDownBody)] = pollLoop 100 5 10 [] ∧
    pollLoop 100 0 5 [(400, expiredBody)] =
      .failed (.authError "device_code_expired") 5 ∧
    pollLoop 100 0 5 [(400, deniedBody)] = .failed (.authError "access_denied") 5 ∧
    pollLoop 100 0 5 [(400, successBody)] = .success "at-123" 5 := by
  have h := device_flow_poll_transitions 100 0 5 400 "at-123" "bearer" "user:email" []
    (by decide)
  exact ⟨h.1, h.2.1, h.2.2.1, h.2.2.2.1, h.2.2.2.2.1 (by decide)⟩

theorem pollLoop_pending_timeout (d I : Nat) :
    ∀ script : List (Int × OAuthTokenBody),
      (∀ p ∈ script, (p.2).error = "authorization_pending") →
      ∀ now, now ≤ d → d - now < script.length * I →
        ∃ T, pollLoop d now I script = .timeout T ∧ d < T ∧ T ≤ d + I := by
  intro script
  induction script with
  | nil =>
    intro _ now _ hlen
    simp at hlen
  | cons hd tl ih =>
    intro hscript now hle hlen
    have herr : hd.2.error = "authorization_pending" := hscript hd (by simp)
    by_cases hto : d < now + I
    · refine ⟨now + I, ?_, hto, by omega⟩
      obtain ⟨st, b⟩ := hd
      simp [pollLoop, hto]
    · have step : pollLoop d now I (hd :: tl) = pollLoop d (now + I) I tl := by
        obtain ⟨st, b⟩ := hd
        simp only at herr
        simp [pollLoop, hto, exchangeDeviceCode, herr]
      have hlen2 : d - (now + I) < tl.length * I := by
        have : (tl.length + 1) * I = tl.length * I + I := by ring
        simp [List.length_cons] at hlen
        omega
      obtain ⟨T, hT, h1, h2⟩ := ih (fun p hp => hscript p (by simp [hp])) (now + I)
        (by omega) hlen2
      exact ⟨T, step.trans hT, h1, h2⟩

/-- C3: against a token endpoint that always answers `authorization_pending`
(a long-enough script of such responses), `PollForToken` terminates with
`ErrPollingTimeout`, and the completion time `T` is strictly after the
deadline `start + min(expires_in, 15 min)` and at most one poll interval
`max(interval, 5 s)` past it. -/
theorem device_flow_polling_timeout (n0 : Nat) (dc : DeviceCodeResponse)
    (script : List (Int × OAuthTokenBody))
    (hscript : ∀ p ∈ script, (p.2).error = "authorization_pending")
    (hexp : 0 < dc.expiresIn)
    (hlen : min dc.expiresIn maxPollDuration < script.length *
      (if dc.interval < defaultPollInterval then defaultPollInterval else dc.interval)) :
    (pollForToken n0 dc script).isTimeout = true ∧
    ∀ T, timeoutTime (pollForToken n0 dc script) = some T →
      n0 + min dc.expiresIn maxPollDuration < T ∧
      T ≤ n0 + min dc.expiresIn maxPollDuration +
        (if dc.interval < defaultPollInterval then defaultPollInterval else dc.interval) := by
  have hunfold : pollForToken n0 dc script =
      pollLoop (n0 + min dc.expiresIn maxPollDuration) n0
        (if dc.interval < defaultPollInterval then defaultPollInterval else dc.interval)
        script := by
    simp [pollForToken, hexp]
  obtain ⟨T, hT, h1, h2⟩ := pollLoop_pending_timeout
    (n0 + min dc.expiresIn maxPollDuration)
    (if dc.interval < defaultPollInterval then defaultPollInterval else dc.interval)
    script hscript n0 (by omega) (by omega)
  rw [hunfold, hT]
  refine ⟨rfl, ?_⟩
  intro T' hT'
  simp [timeoutTime] at hT'
  omega

/-- C3 witness: device code with `expires_in = 20 s`, `interval = 7 s`, and
three pending responses: the loop times out at `T = 21`, after the 20 s
deadline and within one 7 s interval of it. -/
theorem device_flow_polling_timeout_witness :
    (pollForToken 0 ⟨"dc", "ABCD-EFGH", "https://x/activate", 20, 7⟩
        [(200, pendingBody), (200, pendingBody), (200, pendingBody)]).isTimeout = true ∧
    (0 + min 20 maxPollDuration < 21 ∧
      21 ≤ 0 + min 20 maxPollDuration + (if 7 < defaultPollInterval then defaultPollInterval else 7)) := by
  have h := device_flow_polling_timeout 0 ⟨"dc", "ABCD-EFGH", "https://x/activate", 20, 7⟩
    [(200, pendingBody), (200, pendingBody), (200, pendingBody)]
    (by decide) (by decide) (by decide)
  exact ⟨h.1, h.2 21 (by decide)⟩

theorem lookupField_setKey_self (fs : List (String × Json)) (k : String) (v : Json) :
    lookupField (setKey fs k v) k = some v := by
  induction fs with
  | nil => simp [setKey, lookupField]
  | cons hd tl ih =>
    by_cases h : hd.1 = k
    · simp [setKey, lookupField, h]
    · simp [setKey, lookupField, h, ih]

theorem lookupField_setKey_ne (fs : List (String × Json)) (k k' : String) (v : Json)
    (h : k ≠ k') : lookupField (setKey fs k v) k' = lookupField fs k' := by
  induction fs with
  | nil => simp [setKey, lookupField, h]
  | cons hd tl ih =>
    by_cases hh : hd.1 = k
    · simp [setKey, lookupField, hh, h]
    · simp [setKey, lookupField, hh, ih]

/-- C4 (counterexample): on the translated body `{}`, the body Continue's
ExecuteStream sends has `stream` set but no
`stream_options.include_usage` — the claim that every OpenAI-compatible
streaming executor (including Continue) sets `stream_options.include_usage`
to true is false. -/
theorem continue_stream_include_usage_counterexample :
    jsonPathGet ["stream_options", "include_usage"]
      (continueStreamBodyFinal (Json.obj [])) = none ∧
    ¬ jsonPathGet ["stream_options", "include_usage"]
        (continueStreamBodyFinal (Json.obj [])) = some (Json.bool true) ∧
    jsonPathGet ["stream"] (continueStreamBodyFinal (Json.obj [])) =
      some (Json.bool true) := by
  refine ⟨rfl, ?_, rfl⟩
  intro h
  rw [show jsonPathGet ["stream_options", "include_usage"]
      (continueStreamBodyFinal (Json.obj [])) = none from rfl] at h
  exact Option.noConfusion h

/-- C4 (amended): on every translated body, Windsurf's ExecuteStream sends
`stream = true` and `stream_options.include_usage = true`, while Continue's
ExecuteStream sends `stream = true` and leaves `stream_options.include_usage`
exactly as it was in the translated body (it never sets it). -/
theorem stream_body_flags (body : Json) :
    jsonPathGet ["stream"] (windsurfStreamBodyFinal body) = some (Json.bool true) ∧
    jsonPathGet ["stream_options", "include_usage"] (windsurfStreamBodyFinal body) =
      some (Json.bool true) ∧
    jsonPathGet ["stream"] (continueStreamBodyFinal body) = some (Json.bool true) ∧
    jsonPathGet ["stream_options", "include_usage"] (continueStreamBodyFinal body) =
      jsonPathGet ["stream_options", "include_usage"] body := by
  have hne : ("stream_options" : String) ≠ "stream" := by decide
  have hne2 : ("stream" : String) ≠ "stream_options" := by decide
  refine ⟨?_, ?_, ?_, ?_⟩
  · simp [windsurfStreamBodyFinal, continueStreamBodyFinal, sjsonSet, jsonPathGet,
      Json.fieldsOf, lookupField_setKey_ne _ _ _ _ hne, lookupField_setKey_self]
  · simp [windsurfStreamBodyFinal, continueStreamBodyFinal, sjsonSet, jsonPathGet,
      Json.fieldsOf, lookupField_setKey_self]
  · simp [continueStreamBodyFinal, sjsonSet, jsonPathGet, Json.fieldsOf,
      lookupField_setKey_self]
  · cases body with
    | obj fields =>
      simp [continueStreamBodyFinal, sjsonSet, jsonPathGet, Json.fieldsOf,
        lookupField_setKey_ne _ _ _ _ hne2]
    | null =>
      simp [continueStreamBodyFinal, sjsonSet, jsonPathGet, Json.fieldsOf,
        lookupField_setKey_ne _ _ _ _ hne2, setKey, lookupField]
    | bool b =>
      simp [continueStreamBodyFinal, sjsonSet, jsonPathGet, Json.fieldsOf,
        lookupField_setKey_ne _ _ _ _ hne2, setKey, lookupField]
    | num n =>
      simp [continueStreamBodyFinal, sjsonSet, jsonPathGet, Json.fieldsOf,
        lookupField_setKey_ne _ _ _ _ hne2, setKey, lookupField]
    | str s =>
      simp [continueStreamBodyFinal, sjsonSet, jsonPathGet, Json.fieldsOf,
        lookupField_setKey_ne _ _ _ _ hne2, setKey, lookupField]
    | arr elems =>
      simp [continueStreamBodyFinal, sjsonSet, jsonPathGet, Json.fieldsOf,
        lookupField_setKey_ne _ _ _ _ hne2, setKey, lookupField]

/-- C5 (counterexample): the Continue executor's streaming loop, run on one
scanned line followed by a scanner error, closes the channel without ever
emitting an error chunk — the scanner error is only logged — so the claim
that every executor streaming loop emits a final error chunk is false. -/
theorem continue_scanner_error_counterexample :
    (continueStreamResponse (fun l => [l]) ["data: x"]
        (some "bufio.Scanner: token too long") ⟨false, false⟩).1 =
      [StreamChunk.data ("data: x")] ∧
    ((continueStreamResponse (fun l => [l]) ["data: x"]
        (some "bufio.Scanner: token too long") ⟨false, false⟩).1.filter
      StreamChunk.isErr) = [] := by
  exact ⟨rfl, rfl⟩

theorem publishFailure_of_no_success (s : usageReporter)
    (hs : s.successPublished = false) : s.publishFailure.failurePublished = true := by
  unfold usageReporter.publishFailure
  rw [hs]
  by_cases hf : s.failurePublished
  · simp [hf]
  · simp [hf]

/-- C5 (amended): in the Windsurf executor's streaming loop a scanner error
publishes a failure to the usage reporter (recording the request as failed
whenever no success had been published) and emits a final error chunk as the
last element before the channel closes; the Continue executor's streaming
loop, by contrast, emits no error chunk on scanner error
(`continue_scanner_error_counterexample`). -/
theorem windsurf_scanner_error_final_chunk (translate : String → List String)
    (parseUsage : String → Bool) (lines : List String) (e : String)
    (r : usageReporter) :
    ((windsurfStreamResponse translate parseUsage lines (some e) r).1.getLast? =
      some (StreamChunk.err e)) ∧
    ((windsurfProcessLines translate parseUsage lines r).2.successPublished = false →
      (windsurfStreamResponse translate parseUsage lines (some e) r).2.failurePublished =
        true) := by
  constructor
  · show ((windsurfProcessLines translate parseUsage lines r).1 ++
      [StreamChunk.err e]).getLast? = some (StreamChunk.err e)
    rw [List.getLast?_concat]
  · intro h
    exact publishFailure_of_no_success _ h

/-- C5 witness: one scanned data line, then a scanner error, starting from a
fresh reporter. -/
theorem windsurf_scanner_error_final_chunk_witness :
    ((windsurfStreamResponse (fun l => [l]) (fun _ => false) ["data: a"]
        (some "token too long") ⟨false, false⟩).1.getLast? =
      some (StreamChunk.err "token too long")) ∧
    ((windsurfStreamResponse (fun l => [l]) (fun _ => false) ["data: a"]
        (some "token too long") ⟨false, false⟩).2.failurePublished = true) := by
  have h := windsurf_scanner_error_final_chunk (fun l => [l]) (fun _ => false)
    ["data: a"] "token too long" ⟨false, false⟩
  exact ⟨h.1, h.2 rfl⟩

/-- C6: for the Continue, Windsurf and Bolt executors, in both Execute and
ExecuteStream, an upstream status outside 2xx yields `statusErr` carrying
exactly that status code and the full error body, with no response payload
and no stream channel (the `Except.error` carries neither). -/
theorem executor_non2xx_status_err (translate : String → String)
    (chunks : List StreamChunk) (status : Int) (body : String)
    (hfail : ¬ (200 ≤ status ∧ status < 300)) :
    continueExecuteDispatch translate status body = .error ⟨status, body⟩ ∧
    windsurfExecuteDispatch translate status body = .error ⟨status, body⟩ ∧
    boltExecuteDispatch translate status body = .error ⟨status, body⟩ ∧
    continueExecuteStreamDispatch chunks status body = .error ⟨status, body⟩ ∧
    windsurfExecuteStreamDispatch chunks status body = .error ⟨status, body⟩ ∧
    boltExecuteStreamDispatch chunks status body = .error ⟨status, body⟩ := by
  have h1 : isHTTPSuccess status = false := by
    simp only [isHTTPSuccess, Bool.and_eq_false_iff, decide_eq_false_iff_not]
    omega
  have h2 : (decide (status < 200) || decide (300 ≤ status)) = true := by
    simp only [Bool.or_eq_true, decide_eq_true_eq]
    omega
  simp [continueExecuteDispatch, windsurfExecuteDispatch, boltExecuteDispatch,
    continueExecuteStreamDispatch, windsurfExecuteStreamDispatch,
    boltExecuteStreamDispatch, h1, h2]

/-- C6 witness: a 429 quota response. -/
theorem executor_non2xx_status_err_witness :
    continueExecuteDispatch (fun b => b) 429 "quota exceeded" =
      .error ⟨429, "quota exceeded"⟩ ∧
    boltExecuteStreamDispatch [] 429 "quota exceeded" =
      .error ⟨429, "quota exceeded"⟩ := by
  have h := executor_non2xx_status_err (fun b => b) [] 429 "quota exceeded" (by omega)
  exact ⟨h.1, h.2.2.2.2.2⟩

/-- C7: for the registered OpenAI-compatible dialect pairs (windsurf and
cursor against openai_chat), the request transformers return their input
bytes unchanged, the non-streaming response transformers return the upstream
bytes unchanged, and the streaming response transformers forward every
non-empty line unchanged as the single output part (an empty line produces
no output part, so nothing is ever altered). -/
theorem openai_compatible_pass_through (model body line : String) (stream : Bool) :
    ConvertOpenAIRequestToWindsurf model body stream = body ∧
    ConvertWindsurfRequestToOpenAI model body stream = body ∧
    ConvertWindsurfResponseToOpenAINonStream body = body ∧
    ConvertOpenAIResponseToWindsurfNonStream body = body ∧
    ConvertCursorResponseToOpenAINonStream body = body ∧
    (line ≠ "" →
      ConvertWindsurfResponseToOpenAI line = [line] ∧
      ConvertOpenAIResponseToWindsurf line = [line] ∧
      ConvertCursorResponseToOpenAI line = [line]) ∧
    (line = "" →
      ConvertWindsurfResponseToOpenAI line = [] ∧
      ConvertOpenAIResponseToWindsurf line = [] ∧
      ConvertCursorResponseToOpenAI line = []) := by
  refine ⟨rfl, rfl, rfl, rfl, rfl, ?_, ?_⟩
  · intro hline
    have hlen : ¬ line.length = 0 := by
      intro h
      apply hline
      cases line with
      | mk data =>
        cases data with
        | nil => rfl
        | cons c cs => simp [String.length] at h
    refine ⟨?_, ?_, ?_⟩ <;>
      simp [ConvertWindsurfResponseToOpenAI, ConvertOpenAIResponseToWindsurf,
        ConvertCursorResponseToOpenAI, hlen]
  · intro hline
    subst hline
    exact ⟨rfl, rfl, rfl⟩

/-- C7 witness: a non-empty request/response body and line, plus the empty
line. -/
theorem openai_compatible_pass_through_witness :
    ConvertOpenAIRequestToWindsurf "gpt-4" "model gpt-4 messages ping" true =
      "model gpt-4 messages ping" ∧
    ConvertWindsurfResponseToOpenAI "data: chunk-1" = ["data: chunk-1"] ∧
    ConvertCursorResponseToOpenAI "" = [] := by
  have h := openai_compatible_pass_through "gpt-4" "model gpt-4 messages ping"
    "data: chunk-1" true
  have h0 := openai_compatible_pass_through "gpt-4" "b" "" true
  exact ⟨h.1, (h.2.2.2.2.2.1 (by decide)).1, (h0.2.2.2.2.2.2 rfl).2.2⟩

/-- C8 (counterexample): for an OAuth error with an unrecognized code, the
Continue GetUserFriendlyMessage does not map to the fixed message set — it
returns `"Authentication failed: " + Description`, a message that varies with
the provider's description — so the claim that every device-flow error is
mapped to one of a fixed set of messages is false. -/
theorem friendly_message_counterexample :
    continueGetUserFriendlyMessage
        (.oauthError "temporarily_unavailable" "rate limited") =
      "Authentication failed: rate limited" ∧
    ¬ ("Authentication failed: rate limited" ∈ continueFriendlyMessages) := by
  exact ⟨rfl, by decide⟩

/-- C8 (amended): GetUserFriendlyMessage maps every `AuthenticationError`
type and every recognized OAuth error code to a fixed set of human-readable
messages; an unrecognized OAuth code yields
`"Authentication failed: " + description` (Continue) or
`"Authentication failed: " + err.Error()` (Cursor), which embeds but never
equals the raw provider error string — in no case is the raw string returned
unchanged. -/
theorem friendly_message_mapping (typ code desc etext : String) :
    continueGetUserFriendlyMessage (.authError typ) ∈ continueFriendlyMessages ∧
    continueGetUserFriendlyMessage .otherError ∈ continueFriendlyMessages ∧
    (code = "access_denied" ∨ code = "invalid_request" ∨ code = "server_error" →
      continueGetUserFriendlyMessage (.oauthError code desc) ∈
        continueFriendlyMessages) ∧
    (code ≠ "access_denied" → code ≠ "invalid_request" → code ≠ "server_error" →
      continueGetUserFriendlyMessage (.oauthError code desc) =
        "Authentication failed: " ++ desc) ∧
    ("Authentication failed: " ++ desc ≠ desc) ∧
    (cursorGetUserFriendlyMessage (.authError typ etext) ∈ cursorFriendlyMessages ∨
      cursorGetUserFriendlyMessage (.authError typ etext) =
        "Authentication failed: " ++ etext) ∧
    (cursorGetUserFriendlyMessage (.otherError etext) =
      "Authentication failed: " ++ etext) ∧
    ("Authentication failed: " ++ etext ≠ etext) := by
  have hpre : ∀ s : String, "Authentication failed: " ++ s ≠ s := by
    intro s h
    have hlen := congrArg String.length h
    rw [String.length_append] at hlen
    have h23 : ("Authentication failed: " : String).length = 23 := rfl
    omega
  refine ⟨?_, by decide, ?_, ?_, hpre desc, ?_, rfl, hpre etext⟩
  · simp only [continueGetUserFriendlyMessage]
    split_ifs <;> decide
  · intro hcode
    rcases hcode with h | h | h <;> subst h <;>
      simp [continueGetUserFriendlyMessage, continueFriendlyMessages]
  · intro h1 h2 h3
    simp only [continueGetUserFriendlyMessage]
    rw [if_neg h1, if_neg h2, if_neg h3]
  · simp only [cursorGetUserFriendlyMessage]
    split_ifs <;> first | (left; decide) | (right; rfl)

/-- C8 witness: a recognized code (`access_denied`), an unrecognized one, and
a cursor error of unmatched type (`slow_down`). -/
theorem friendly_message_mapping_witness :
    continueGetUserFriendlyMessage (.oauthError "access_denied" "x") ∈
      continueFriendlyMessages ∧
    continueGetUserFriendlyMessage (.oauthError "weird_code" "boom") =
      "Authentication failed: boom" ∧
    (cursorGetUserFriendlyMessage (.authError "slow_down" "cursor auth: slow down polling") ∈
        cursorFriendlyMessages ∨
      cursorGetUserFriendlyMessage (.authError "slow_down" "cursor auth: slow down polling") =
        "Authentication failed: " ++ "cursor auth: slow down polling") := by
  have h1 := friendly_message_mapping "slow_down" "access_denied" "x"
    "cursor auth: slow down polling"
  have h2 := friendly_message_mapping "slow_down" "weird_code" "boom"
    "cursor auth: slow down polling"
  exact ⟨h1.2.2.1 (Or.inl rfl), h2.2.2.2.1 (by decide) (by decide) (by decide),
    h1.2.2.2.2.2.1⟩
